import Mathlib

/-!
Verification of the unimocks request-dispatch and interception layer.

The development shallowly embeds the TypeScript sources:
  - src/index.ts    : APIService dispatch wrapper, metaRequest helpers, buildURL
  - src/puppeteer.ts: RequestMock endpoint interceptor and mockAPI

JSON values on the wire are modelled by the inductive type Json below;
JSON.stringify and JSON.parse are modelled by Json.stringify and
Json.parse (numeric literals are modelled as integers, which covers every
value exercised here).  JavaScript promises are modelled by the Outcome
type: a promise either resolves, rejects, or never settles (pending).
-/

mutual

/-- JSON values.  Arrays and objects use their own list types so that all
recursive functions are structural and reduce inside the kernel. -/
inductive Json where
  | null : Json
  | bool (b : Bool) : Json
  | num (n : Int) : Json
  | str (s : String) : Json
  | arr (xs : JsonList) : Json
  | obj (fs : JsonFields) : Json

inductive JsonList where
  | nil : JsonList
  | cons (hd : Json) (tl : JsonList) : JsonList

inductive JsonFields where
  | nil : JsonFields
  | cons (key : String) (val : Json) (tl : JsonFields) : JsonFields

end

/-- Left brace character (written by code point to keep braces out of
string literals). -/
def lbrace : Char := Char.ofNat 123

/-- Right brace character. -/
def rbrace : Char := Char.ofNat 125

/-- Lower-case hexadecimal digit. -/
def hexDigitChar (n : Nat) : Char :=
  if n < 10 then Char.ofNat (48 + n) else Char.ofNat (87 + (n % 16))

/-- JSON string escaping of one character, as JSON.stringify performs it. -/
def escapeChar (c : Char) : List Char :=
  if c = '"' then ['\\', '"']
  else if c = '\\' then ['\\', '\\']
  else if c = '\n' then ['\\', 'n']
  else if c = '\t' then ['\\', 't']
  else if c = '\r' then ['\\', 'r']
  else if c = Char.ofNat 8 then ['\\', 'b']
  else if c = Char.ofNat 12 then ['\\', 'f']
  else if c.toNat < 32 then
    ['\\', 'u', '0', '0', hexDigitChar (c.toNat / 16), hexDigitChar (c.toNat % 16)]
  else [c]

/-- JSON serialization of a string body (including the surrounding quotes). -/
def stringifyString (s : String) : List Char :=
  '"' :: (s.data.flatMap escapeChar) ++ ['"']

mutual

/-- Characters of the JSON serialization of a value (JSON.stringify with no
indentation argument). -/
def stringifyVal : Json → List Char
  | Json.null => ['n', 'u', 'l', 'l']
  | Json.bool true => ['t', 'r', 'u', 'e']
  | Json.bool false => ['f', 'a', 'l', 's', 'e']
  | Json.num n => (toString n).data
  | Json.str s => stringifyString s
  | Json.arr xs => '[' :: stringifyArr xs ++ [']']
  | Json.obj fs => lbrace :: stringifyObj fs ++ [rbrace]

/-- Comma-separated serialization of array elements. -/
def stringifyArr : JsonList → List Char
  | JsonList.nil => []
  | JsonList.cons x JsonList.nil => stringifyVal x
  | JsonList.cons x (JsonList.cons y tl) =>
      stringifyVal x ++ ',' :: stringifyArr (JsonList.cons y tl)

/-- Comma-separated serialization of object fields. -/
def stringifyObj : JsonFields → List Char
  | JsonFields.nil => []
  | JsonFields.cons k v JsonFields.nil => stringifyString k ++ ':' :: stringifyVal v
  | JsonFields.cons k v (JsonFields.cons k2 v2 tl) =>
      stringifyString k ++ ':' :: stringifyVal v ++
        ',' :: stringifyObj (JsonFields.cons k2 v2 tl)

end

/-- Model of JSON.stringify. -/
def Json.stringify (j : Json) : String :=
  String.mk (stringifyVal j)

/-- Skip JSON whitespace (space, tab, newline, carriage return). -/
def skipWs : List Char → List Char
  | [] => []
  | c :: cs =>
      if c = ' ' ∨ c = '\t' ∨ c = '\n' ∨ c = '\r' then skipWs cs else c :: cs

/-- Value of a hexadecimal digit character, if it is one. -/
def hexVal (c : Char) : Option Nat :=
  if '0' ≤ c ∧ c ≤ '9' then some (c.toNat - 48)
  else if 'a' ≤ c ∧ c ≤ 'f' then some (c.toNat - 87)
  else if 'A' ≤ c ∧ c ≤ 'F' then some (c.toNat - 55)
  else none

/-- Decode a single-character JSON escape (the character after a
backslash), for every escape other than the unicode one. -/
def escDecode (e : Char) : Option Char :=
  if e = '"' then some '"'
  else if e = '\\' then some '\\'
  else if e = '/' then some '/'
  else if e = 'n' then some '\n'
  else if e = 't' then some '\t'
  else if e = 'r' then some '\r'
  else if e = 'b' then some (Char.ofNat 8)
  else if e = 'f' then some (Char.ofNat 12)
  else none

/-- Parse the inside of a JSON string literal (the opening quote already
consumed), returning the decoded characters and the rest of the input. -/
def parseStringChars : List Char → Option (List Char × List Char)
  | [] => none
  | c :: cs =>
      if c = '"' then some ([], cs)
      else if c = '\\' then
        match cs with
        | [] => none
        | e :: cs2 =>
            if e = 'u' then
              match cs2 with
              | h1 :: h2 :: h3 :: h4 :: cs3 =>
                  match hexVal h1, hexVal h2, hexVal h3, hexVal h4 with
                  | some a, some b, some c3, some d =>
                      match parseStringChars cs3 with
                      | none => none
                      | some (tl, rest2) =>
                          some (Char.ofNat (((a * 16 + b) * 16 + c3) * 16 + d) :: tl,
                                rest2)
                  | _, _, _, _ => none
              | _ => none
            else
              match escDecode e with
              | none => none
              | some ch =>
                  match parseStringChars cs2 with
                  | none => none
                  | some (tl, rest2) => some (ch :: tl, rest2)
      else
        match parseStringChars cs with
        | none => none
        | some (tl, rest) => some (c :: tl, rest)

/-- Parse a run of decimal digits into a natural number accumulator. -/
def parseDigits : List Char → Nat → Option (Nat × List Char)
  | [], _ => none
  | c :: cs, acc =>
      if c.isDigit then
        match parseDigits cs (acc * 10 + (c.toNat - 48)) with
        | some r => some r
        | none => some (acc * 10 + (c.toNat - 48), cs)
      else none

/-- Parse an integer JSON numeric literal (optional leading minus). -/
def parseNumber : List Char → Option (Json × List Char)
  | [] => none
  | c :: cs =>
      if c = '-' then
        match parseDigits cs 0 with
        | some (n, rest) => some (Json.num (-(n : Int)), rest)
        | none => none
      else
        match parseDigits (c :: cs) 0 with
        | some (n, rest) => some (Json.num (n : Int), rest)
        | none => none

mutual

/-- Fueled JSON value parser: returns the value and the unconsumed input. -/
def parseValue : Nat → List Char → Option (Json × List Char)
  | 0, _ => none
  | fuel + 1, cs =>
      match skipWs cs with
      | [] => none
      | c :: rest =>
          if c = 'n' then
            match rest with
            | 'u' :: 'l' :: 'l' :: rest2 => some (Json.null, rest2)
            | _ => none
          else if c = 't' then
            match rest with
            | 'r' :: 'u' :: 'e' :: rest2 => some (Json.bool true, rest2)
            | _ => none
          else if c = 'f' then
            match rest with
            | 'a' :: 'l' :: 's' :: 'e' :: rest2 => some (Json.bool false, rest2)
            | _ => none
          else if c = '"' then
            match parseStringChars rest with
            | some (chars, rest2) => some (Json.str (String.mk chars), rest2)
            | none => none
          else if c = '[' then
            match skipWs rest with
            | ']' :: rest2 => some (Json.arr JsonList.nil, rest2)
            | rest1 => match parseArrayItems fuel rest1 with
                       | some (xs, rest2) => some (Json.arr xs, rest2)
                       | none => none
          else if c = lbrace then
            match skipWs rest with
            | d :: rest2 =>
                if d = rbrace then some (Json.obj JsonFields.nil, rest2)
                else match parseObjFields fuel (d :: rest2) with
                     | some (fs, rest3) => some (Json.obj fs, rest3)
                     | none => none
            | [] => none
          else if c = '-' ∨ c.isDigit then parseNumber (c :: rest)
          else none

/-- Parse one-or-more comma-separated array items followed by a closing
bracket. -/
def parseArrayItems : Nat → List Char → Option (JsonList × List Char)
  | 0, _ => none
  | fuel + 1, cs =>
      match parseValue fuel cs with
      | none => none
      | some (x, rest) =>
          match skipWs rest with
          | ',' :: rest2 =>
              match parseArrayItems fuel rest2 with
              | some (tl, rest3) => some (JsonList.cons x tl, rest3)
              | none => none
          | ']' :: rest2 => some (JsonList.cons x JsonList.nil, rest2)
          | _ => none

/-- Parse one-or-more comma-separated object fields followed by a closing
brace. -/
def parseObjFields : Nat → List Char → Option (JsonFields × List Char)
  | 0, _ => none
  | fuel + 1, cs =>
      match skipWs cs with
      | '"' :: rest =>
          match parseStringChars rest with
          | none => none
          | some (keyChars, rest2) =>
              match skipWs rest2 with
              | ':' :: rest3 =>
                  match parseValue fuel rest3 with
                  | none => none
                  | some (v, rest4) =>
                      match skipWs rest4 with
                      | ',' :: rest5 =>
                          match parseObjFields fuel rest5 with
                          | some (tl, rest6) =>
                              some (JsonFields.cons (String.mk keyChars) v tl, rest6)
                          | none => none
                      | d :: rest5 =>
                          if d = rbrace then
                            some (JsonFields.cons (String.mk keyChars) v JsonFields.nil,
                                  rest5)
                          else none
                      | [] => none
              | _ => none
      | _ => none

end

/-- Model of JSON.parse: none models a thrown SyntaxError. -/
def Json.parse (s : String) : Option Json :=
  match parseValue (s.data.length + 1) s.data with
  | some (j, rest) => if skipWs rest = [] then some j else none
  | none => none

/-- Eventual fate of a JavaScript promise: it resolves with a value,
rejects with an error, or never settles. -/
inductive Outcome (E A : Type) where
  | resolved (a : A) : Outcome E A
  | rejected (e : E) : Outcome E A
  | pending : Outcome E A

/-- Behaviour of invoking a mock implementation (src/index.ts MockRequest):
the call either throws synchronously, or returns a value or promise whose
eventual fate is the given outcome (a plain returned value is a resolved
outcome, as Promise.resolve adopts it). -/
inductive MockBehavior (E A : Type) where
  | throws (e : E) : MockBehavior E A
  | returns (o : Outcome E A) : MockBehavior E A

/-- A live API request implementation (src/index.ts APIRequest): input to
the eventual outcome of the returned promise. -/
def APIRequest (E : Type) : Type := Json → Outcome E Json

/-- A mock API request implementation (src/index.ts MockRequest). -/
def MockRequest (E : Type) : Type := Json → MockBehavior E Json

/-- An erroring mock implementation (src/puppeteer.ts MockError); at
runtime it has the same shape as MockRequest. -/
def MockError (E : Type) : Type := Json → MockBehavior E Json

/-- Outcome of the promise built by the local-substitute path of the
dispatch wrapper (src/index.ts lines 63-68):
new Promise(resolve => setTimeout(() => resolve(Promise.resolve(mock(input))), d)).
A mock that returns a value or promise is adopted by resolve; a mock that
throws synchronously throws inside the timer callback, so resolve is never
called and the promise never settles. -/
def settleMock {E : Type} (b : MockBehavior E Json) : Outcome E Json :=
  match b with
  | MockBehavior.throws _ => Outcome.pending
  | MockBehavior.returns o => o

/-- The delay used by the local-substitute path: the JavaScript expression
(config?.timeout || 200), so any falsy timeout (absent or 0) yields 200. -/
def effectiveTimeout (timeout : Option Nat) : Nat :=
  match timeout with
  | some t => if t = 0 then 200 else t
  | none => 200

/-- State of a constructed APIService (src/index.ts): the service name,
the live implementations passed to the constructor, the captured
configuration, and the current mocks field (assigned from config.mocks at
construction and mutable afterwards). -/
structure APIService (E : Type) where
  name : String
  api : List (String × APIRequest E)
  integrationMocks : Bool
  timeout : Option Nat
  mocks : List (String × MockRequest E)

/-- Trace of one call to a wrapped request: which backend the three-tier
routing chose and what it produced. -/
inductive DispatchTrace (E : Type) where
  | tunnel (method : String) (path : String) (body : String) (response : Json) :
      DispatchTrace E
  | substituted (delayMs : Nat) (outcome : Outcome E Json) : DispatchTrace E
  | live (outcome : Outcome E Json) : DispatchTrace E

/-- One call to the wrapped request stored under the given key
(src/index.ts lines 50-72).  The fetchJson argument is the network oracle
for the tunnel path: given the request path and the serialized body it
yields the JSON-deserialized response body.  Returns none when no request
was registered under the key. -/
def APIService.dispatch {E : Type} (s : APIService E) (key : String)
    (fetchJson : String → String → Json) (input : Json) :
    Option (DispatchTrace E) :=
  match List.lookup key s.api with
  | none => none
  | some call =>
      some (
        if s.integrationMocks then
          DispatchTrace.tunnel "POST" ("/" ++ s.name ++ "/" ++ key)
            (Json.stringify input)
            (fetchJson ("/" ++ s.name ++ "/" ++ key) (Json.stringify input))
        else
          match List.lookup key s.mocks with
          | some m =>
              DispatchTrace.substituted (effectiveTimeout s.timeout)
                (settleMock (m input))
          | none => DispatchTrace.live (call input))

/-- Does the pattern occur at the head of the list? -/
def listStartsWith : List Char → List Char → Bool
  | [], _ => true
  | _ :: _, [] => false
  | p :: ps, c :: cs => p = c && listStartsWith ps cs

/-- JavaScript String.prototype.replace with a string pattern: replace the
first occurrence only. -/
def replaceFirstList (s pat rep : List Char) : List Char :=
  match s with
  | [] => if listStartsWith pat [] then rep else []
  | c :: cs =>
      if listStartsWith pat (c :: cs) then rep ++ (c :: cs).drop pat.length
      else c :: replaceFirstList cs pat rep

/-- String version of replaceFirstList. -/
def replaceFirst (s pat rep : String) : String :=
  String.mk (replaceFirstList s.data pat.data rep.data)

/-- URL-building utility (src/index.ts lines 166-172): for each field of the
input object, in key order, replace the first occurrence of the literal
"/:key/" by "/value/"; with a nullish input the template is returned as is.
Input object fields are modelled as an association list of string values
(the template substitution interpolates the field value into the URL). -/
def buildURL (url : String) (input : Option (List (String × String))) : String :=
  match input with
  | none => url
  | some fields =>
      fields.foldl
        (fun res kv => replaceFirst res ("/:" ++ kv.1 ++ "/") ("/" ++ kv.2 ++ "/"))
        url

/-- State of one RequestMock endpoint interceptor (src/puppeteer.ts):
forced status, optional override responder, call history, the URL suffix
to match, and the base mock captured at construction. -/
structure RequestMockState (E : Type) where
  status : Nat
  override : Option (MockRequest E)
  calls : List (Json × Json)
  url : String
  baseMock : MockRequest E

/-- A RequestMock as just constructed (src/puppeteer.ts lines 86-92):
status 200, no override, empty call history. -/
def RequestMock.new {E : Type} (url : String) (baseMock : MockRequest E) :
    RequestMockState E :=
  { status := 200, override := none, calls := [], url := url, baseMock := baseMock }

/-- One intercepted network request event as seen by the listener:
its URL, its optional POST body, whether another observer had already
resolved it on entry, and whether another observer resolves it while the
responder is awaited (the re-check after the await). -/
structure InterceptedRequest where
  url : String
  postData : Option String
  alreadyHandled : Bool
  handledAfterAwait : Bool

/-- What the listener did with the network event. -/
inductive ListenerResult (E : Type) where
  | skipped : ListenerResult E
  | respond (status : Nat) (contentType : String) (body : String)
      (priority : Int) : ListenerResult E
  | continued (priority : Int) : ListenerResult E
  | errored (e : E) : ListenerResult E
  | parseFailed : ListenerResult E
  | hung : ListenerResult E

/-- JavaScript String.prototype.endsWith. -/
def strEndsWith (s suffix : String) : Bool :=
  s.data.drop (s.data.length - suffix.data.length) == suffix.data

/-- The body string handed to JSON.parse by the listener:
request.postData() || "42" with the object literal of two braces in place
of 42; an absent or empty (falsy) body falls back to the literal with the
two braces (src/puppeteer.ts lines 62-64). -/
def effectiveBody (postData : Option String) : String :=
  match postData with
  | none => String.mk [lbrace, rbrace]
  | some s => if s = "" then String.mk [lbrace, rbrace] else s

/-- The endpoint interceptor listener (src/puppeteer.ts lines 59-84),
returning the updated interceptor state and what was done with the event.
A JSON.parse failure or a responder that throws or rejects makes the async
listener reject, leaving the event unresolved and the state untouched; a
responder that never settles leaves the listener suspended forever. -/
def RequestMock.listener {E : Type} (st : RequestMockState E)
    (req : InterceptedRequest) : RequestMockState E × ListenerResult E :=
  if req.alreadyHandled then (st, ListenerResult.skipped)
  else if strEndsWith req.url st.url then
    match Json.parse (effectiveBody req.postData) with
    | none => (st, ListenerResult.parseFailed)
    | some input =>
        match (st.override.getD st.baseMock) input with
        | MockBehavior.throws e => (st, ListenerResult.errored e)
        | MockBehavior.returns (Outcome.rejected e) => (st, ListenerResult.errored e)
        | MockBehavior.returns Outcome.pending => (st, ListenerResult.hung)
        | MockBehavior.returns (Outcome.resolved output) =>
            if req.handledAfterAwait then (st, ListenerResult.skipped)
            else
              ({ st with calls := st.calls ++ [(input, output)] },
               ListenerResult.respond st.status "application/json"
                 (Json.stringify output) 0)
  else if req.alreadyHandled then (st, ListenerResult.skipped)
  else (st, ListenerResult.continued (-1))

/-- setResponse mutator (src/puppeteer.ts lines 94-96). -/
def RequestMock.setResponse {E : Type} (st : RequestMockState E)
    (mock : MockRequest E) : RequestMockState E :=
  { st with override := some mock }

/-- setError mutator (src/puppeteer.ts lines 98-101). -/
def RequestMock.setError {E : Type} (st : RequestMockState E) (code : Nat)
    (mock : MockError E) : RequestMockState E :=
  { st with status := code, override := some mock }

/-- reset mutator (src/puppeteer.ts lines 103-106). -/
def RequestMock.reset {E : Type} (st : RequestMockState E) : RequestMockState E :=
  { st with status := 200, override := none }

/-- The slice of puppeteer page state the interception layer touches:
whether request interception was enabled, and how many request listeners
have been installed through page.on. -/
structure PageModel where
  requestInterceptionEnabled : Bool
  listenersInstalled : Nat

/-- Effect of page.on with a request listener: one more listener installed. -/
def pageOn (p : PageModel) : PageModel :=
  { p with listenersInstalled := p.listenersInstalled + 1 }

/-- The default base mock used by mockAPI when the service has no mock for
a request name: () => the empty object literal (src/puppeteer.ts line 121). -/
def defaultPuppetMock {E : Type} : MockRequest E :=
  fun _ => MockBehavior.returns (Outcome.resolved (Json.obj JsonFields.nil))

/-- One step of the reduce in mockAPI (src/puppeteer.ts lines 115-125):
construct the RequestMock for one request name, whose constructor installs
one request listener on the page. -/
def mockAPIStep {E : Type} (name : String) (mocks : List (String × MockRequest E))
    (acc : PageModel × List (String × RequestMockState E))
    (kv : String × APIRequest E) :
    PageModel × List (String × RequestMockState E) :=
  (pageOn acc.1,
   acc.2 ++ [(kv.1, RequestMock.new (name ++ "/" ++ kv.1)
     ((List.lookup kv.1 mocks).getD defaultPuppetMock))])

/-- mockAPI (src/puppeteer.ts lines 110-126): enable request interception
on the page, then build one RequestMock per request name of the service.
The service itself is returned unchanged: the function never assigns to
api.mocks or any other field of the service. -/
def mockAPI {E : Type} (s : APIService E) (p : PageModel) :
    APIService E × PageModel × List (String × RequestMockState E) :=
  let p1 := { p with requestInterceptionEnabled := true }
  let r := s.api.foldl (mockAPIStep s.name s.mocks) (p1, [])
  (s, r.1, r.2)

/-- A fresh page with no listeners installed. -/
def page0 : PageModel :=
  { requestInterceptionEnabled := false, listenersInstalled := 0 }

/-- Sample live implementation. -/
def sampleCall : APIRequest String :=
  fun _ => Outcome.resolved (Json.str "live")

/-- Sample mock implementation. -/
def sampleMock : MockRequest String :=
  fun _ => MockBehavior.returns (Outcome.resolved (Json.str "mocked"))

/-- Sample service with one request and a mock for it. -/
def sampleService : APIService String :=
  { name := "users", api := [("getUsers", sampleCall)], integrationMocks := false,
    timeout := none, mocks := [("getUsers", sampleMock)] }

/-- Sample network oracle for the tunnel path. -/
def sampleFetch : String → String → Json :=
  fun _ _ => Json.str "tunneled"

/-- Sample service with an explicitly configured timeout of 0. -/
def zeroTimeoutService : APIService String :=
  { sampleService with timeout := some 0 }

/-- A mock that throws synchronously. -/
def throwingMock : MockRequest String :=
  fun _ => MockBehavior.throws "boom"

/-- A mock that returns a promise that rejects. -/
def rejectingMock : MockRequest String :=
  fun _ => MockBehavior.returns (Outcome.rejected "err")

/-- Sample service whose substitute throws synchronously. -/
def throwingService : APIService String :=
  { sampleService with mocks := [("getUsers", throwingMock)] }

/-- Sample service whose substitute rejects asynchronously. -/
def rejectingService : APIService String :=
  { sampleService with mocks := [("getUsers", rejectingMock)] }

/-- Sample service with two requests and no mocks. -/
def twoRequestService : APIService String :=
  { name := "users",
    api := [("getUsers", sampleCall), ("addUser", sampleCall)],
    integrationMocks := false, timeout := none, mocks := [] }

/-- A mock echoing its input. -/
def echoMock : MockRequest String :=
  fun j => MockBehavior.returns (Outcome.resolved j)

/-- An interceptor freshly constructed over the echo mock. -/
def echoState : RequestMockState String :=
  RequestMock.new "users/getUsers" echoMock

/-- An error responder used with setError. -/
def errMock : MockRequest String :=
  fun _ => MockBehavior.returns (Outcome.resolved (Json.str "down"))

/-- The sample JSON object with one numeric field. -/
def inputA : Json :=
  Json.obj (JsonFields.cons "a" (Json.num 1) JsonFields.nil)

/-- A matching intercepted request carrying that object as its body. -/
def sampleIntercepted : InterceptedRequest :=
  { url := "https://host/users/getUsers", postData := some "\x7b\"a\":1\x7d",
    alreadyHandled := false, handledAfterAwait := false }

/-- A matching intercepted request with no body at all. -/
def emptyBodyIntercepted : InterceptedRequest :=
  { url := "https://host/users/getUsers", postData := none,
    alreadyHandled := false, handledAfterAwait := false }

/-- The page component of the mockAPI fold: every step installs exactly one
listener and leaves the interception flag alone. -/
theorem mockAPIStep_fold_page {E : Type} (name : String)
    (mocks : List (String × MockRequest E)) (l : List (String × APIRequest E))
    (pg : PageModel) (acc : List (String × RequestMockState E)) :
    (l.foldl (mockAPIStep name mocks) (pg, acc)).1 =
      { pg with listenersInstalled := pg.listenersInstalled + l.length } := by
  induction l generalizing pg acc with
  | nil => simp
  | cons hd tl ih =>
      simp only [List.foldl, mockAPIStep]
      rw [ih]
      cases pg
      simp [pageOn]
      omega

/-- The interceptor-list component of the mockAPI fold: one RequestMock per
request name, in order, with the mock defaulted when absent. -/
theorem mockAPIStep_fold_list {E : Type} (name : String)
    (mocks : List (String × MockRequest E)) (l : List (String × APIRequest E))
    (pg : PageModel) (acc : List (String × RequestMockState E)) :
    (l.foldl (mockAPIStep name mocks) (pg, acc)).2 =
      acc ++ l.map (fun kv => (kv.1, RequestMock.new (name ++ "/" ++ kv.1)
        ((List.lookup kv.1 mocks).getD defaultPuppetMock))) := by
  induction l generalizing pg acc with
  | nil => simp
  | cons hd tl ih =>
      simp only [List.foldl, mockAPIStep, ih, List.map]
      simp

/-- Looking a key up in an association list whose values were rebuilt from
the keys yields the rebuilt value of that key. -/
theorem lookup_map_assoc {α β γ : Type} [BEq α] [LawfulBEq α] (key : α)
    (f : α → γ) (l : List (α × β)) :
    List.lookup key (l.map (fun kv => (kv.1, f kv.1))) =
      (List.lookup key l).map (fun _ => f key) := by
  induction l with
  | nil => rfl
  | cons hd tl ih =>
      simp only [List.map, List.lookup]
      cases hbeq : key == hd.1 with
      | false => simpa using ih
      | true =>
          have : key = hd.1 := eq_of_beq hbeq
          simp [this]

/-- Claim C1: for every service and registered request name, a call to the
wrapped request routes in priority order: with the tunnel flag set it POSTs
the JSON-serialized input to /serviceName/requestName and returns the
JSON-deserialized response body; otherwise, with a local substitute present
at call time, it returns the substitute's settled result after the
artificial delay; otherwise it invokes the live operation unchanged. -/
theorem dispatch_routing_priority {E : Type} (s : APIService E) (key : String)
    (call : APIRequest E) (fetchJson : String → String → Json) (input : Json)
    (hcall : List.lookup key s.api = some call) :
    (s.integrationMocks = true →
       s.dispatch key fetchJson input =
         some (DispatchTrace.tunnel "POST" ("/" ++ s.name ++ "/" ++ key)
           (Json.stringify input)
           (fetchJson ("/" ++ s.name ++ "/" ++ key) (Json.stringify input))))
  ∧ (∀ m : MockRequest E, s.integrationMocks = false →
       List.lookup key s.mocks = some m →
       s.dispatch key fetchJson input =
         some (DispatchTrace.substituted (effectiveTimeout s.timeout)
           (settleMock (m input))))
  ∧ (s.integrationMocks = false → List.lookup key s.mocks = none →
       s.dispatch key fetchJson input = some (DispatchTrace.live (call input))) := by
  refine ⟨?_, ?_, ?_⟩
  · intro hflag
    simp [APIService.dispatch, hcall, hflag]
  · intro m hflag hm
    simp [APIService.dispatch, hcall, hflag, hm]
  · intro hflag hm
    simp [APIService.dispatch, hcall, hflag, hm]

/-- Witness for claim C1: on the sample service, the lookup hypothesis
holds and the substitute path is taken with the default 200ms delay. -/
theorem dispatch_routing_priority_witness :
    List.lookup "getUsers" sampleService.api = some sampleCall ∧
    sampleService.dispatch "getUsers" sampleFetch Json.null =
      some (DispatchTrace.substituted 200 (Outcome.resolved (Json.str "mocked"))) :=
  ⟨rfl,
   (dispatch_routing_priority sampleService "getUsers" sampleCall sampleFetch
     Json.null rfl).2.1 sampleMock rfl rfl⟩

/-- Claim C2 counterexample: mockAPI does not clear the service's mocks
field; on the sample service the mapping is still nonempty afterwards and a
subsequent dispatch still takes the local-substitute path. -/
theorem mockAPI_clears_mocks_cex :
    (mockAPI sampleService page0).1.mocks = [("getUsers", sampleMock)] ∧
    [("getUsers", sampleMock)] ≠ ([] : List (String × MockRequest String)) ∧
    (mockAPI sampleService page0).1.dispatch "getUsers" sampleFetch Json.null =
      some (DispatchTrace.substituted 200 (Outcome.resolved (Json.str "mocked"))) := by
  refine ⟨rfl, ?_, rfl⟩
  simp

/-- Claim C2 (amended): mockAPI returns the service unchanged, its
local-substitute mapping included, so every subsequent dispatch behaves
exactly as it did before interception was activated; the substitute
mapping is cleared only by the contract-test interaction builder, not by
mockAPI. -/
theorem mockAPI_preserves_mocks {E : Type} (s : APIService E) (p : PageModel) :
    (mockAPI s p).1 = s ∧
    (mockAPI s p).1.mocks = s.mocks ∧
    ∀ (key : String) (fetchJson : String → String → Json) (input : Json),
      ((mockAPI s p).1).dispatch key fetchJson input =
        s.dispatch key fetchJson input :=
  ⟨rfl, rfl, fun _ _ _ => rfl⟩

/-- Claim C3 counterexample: on a service with two request names, mockAPI
installs two request listeners on the page, not one shared one. -/
theorem mockAPI_single_listener_cex :
    (mockAPI twoRequestService page0).2.1.listenersInstalled = 2 ∧
    (2 : Nat) ≠ 1 :=
  ⟨rfl, by decide⟩

/-- Claim C3 (amended): activating interception enables request
interception on the page and installs one traffic listener per request
name in the registry: each Endpoint Interceptor owns its own page
listener, installed by its constructor. -/
theorem mockAPI_listener_per_request {E : Type} (s : APIService E) (p : PageModel) :
    (mockAPI s p).2.1.requestInterceptionEnabled = true ∧
    (mockAPI s p).2.1.listenersInstalled = p.listenersInstalled + s.api.length := by
  unfold mockAPI
  rw [mockAPIStep_fold_page]
  exact ⟨rfl, rfl⟩

/-- Claim C4: a matching intercepted request is completed from the parsed
body (the empty object standing in for an absent body), through the
override responder or the construction-time substitute, with the pair
appended to the call history and a response carrying the current status,
content type application/json and the JSON-serialized output; a
non-matching request is continued unmodified at lowest priority. -/
theorem listener_match_and_passthrough {E : Type} (st : RequestMockState E)
    (req : InterceptedRequest) (input output : Json)
    (hh : req.alreadyHandled = false) :
    (strEndsWith req.url st.url = true →
     Json.parse (effectiveBody req.postData) = some input →
     (st.override.getD st.baseMock) input =
       MockBehavior.returns (Outcome.resolved output) →
     req.handledAfterAwait = false →
     RequestMock.listener st req =
       ({ st with calls := st.calls ++ [(input, output)] },
        ListenerResult.respond st.status "application/json"
          (Json.stringify output) 0))
  ∧ (strEndsWith req.url st.url = false →
     RequestMock.listener st req = (st, ListenerResult.continued (-1)))
  ∧ Json.parse (effectiveBody none) = some (Json.obj JsonFields.nil) := by
  refine ⟨?_, ?_, rfl⟩
  · intro hmatch hp hresp hafter
    simp [RequestMock.listener, hh, hmatch, hp, hresp, hafter]
  · intro hmatch
    simp [RequestMock.listener, hh, hmatch]

/-- Witness for claim C4: a fresh echo interceptor completes a matching
request whose body is one small JSON object. -/
theorem listener_match_and_passthrough_witness :
    RequestMock.listener echoState sampleIntercepted =
      ({ echoState with calls := [(inputA, inputA)] },
       ListenerResult.respond 200 "application/json" "\x7b\"a\":1\x7d" 0) :=
  (listener_match_and_passthrough echoState sampleIntercepted inputA inputA
    rfl).1 rfl rfl rfl rfl

/-- Claim C5: after setError the next matching call completes with the
forced status code and the override responder's output as body; reset
restores status 200 and reverts to the construction-time substitute; and
setResponse replaces only the override responder, leaving the forced
status code unchanged. -/
theorem interceptor_mutators_behavior {E : Type} (st : RequestMockState E)
    (code : Nat) (mock mock2 : MockRequest E) (req : InterceptedRequest)
    (input output : Json)
    (hh : req.alreadyHandled = false)
    (hmatch : strEndsWith req.url st.url = true)
    (hp : Json.parse (effectiveBody req.postData) = some input)
    (hafter : req.handledAfterAwait = false) :
    (mock input = MockBehavior.returns (Outcome.resolved output) →
      RequestMock.listener (RequestMock.setError st code mock) req =
        ({ RequestMock.setError st code mock with
            calls := st.calls ++ [(input, output)] },
         ListenerResult.respond code "application/json"
           (Json.stringify output) 0))
  ∧ (RequestMock.reset (RequestMock.setError st code mock)).status = 200
  ∧ (RequestMock.reset (RequestMock.setError st code mock)).override = none
  ∧ (st.baseMock input = MockBehavior.returns (Outcome.resolved output) →
      RequestMock.listener
        (RequestMock.reset (RequestMock.setError st code mock)) req =
        ({ RequestMock.reset (RequestMock.setError st code mock) with
            calls := st.calls ++ [(input, output)] },
         ListenerResult.respond 200 "application/json"
           (Json.stringify output) 0))
  ∧ (RequestMock.setResponse st mock2).override = some mock2
  ∧ (RequestMock.setResponse st mock2).status = st.status := by
  refine ⟨?_, rfl, rfl, ?_, rfl, rfl⟩
  · intro hresp
    simp [RequestMock.listener, RequestMock.setError, hh, hmatch, hp, hresp, hafter]
  · intro hresp
    simp [RequestMock.listener, RequestMock.reset, RequestMock.setError,
      hh, hmatch, hp, hresp, hafter]

/-- Witness for claim C5: setError 503 on the echo interceptor makes a
matching call respond 503 with the error responder's body. -/
theorem interceptor_mutators_behavior_witness :
    RequestMock.listener (RequestMock.setError echoState 503 errMock)
      sampleIntercepted =
      ({ RequestMock.setError echoState 503 errMock with
          calls := [(inputA, Json.str "down")] },
       ListenerResult.respond 503 "application/json" "\"down\"" 0) :=
  (interceptor_mutators_behavior echoState 503 errMock errMock sampleIntercepted
    inputA (Json.str "down") rfl rfl rfl rfl).1 rfl

/-- Claim C6 counterexample: with the tunnel flag unset and a substitute
that throws synchronously, the dispatch promise never settles (the throw
happens inside the timer callback, after which resolve is never called),
so no failed asynchronous result reaches the caller. -/
theorem substitute_sync_throw_cex :
    throwingMock Json.null = MockBehavior.throws "boom" ∧
    throwingService.dispatch "getUsers" sampleFetch Json.null =
      some (DispatchTrace.substituted 200 (Outcome.pending : Outcome String Json)) ∧
    (Outcome.pending : Outcome String Json) ≠ Outcome.rejected "boom" :=
  ⟨rfl, rfl, fun h => Outcome.noConfusion h⟩

/-- Claim C6 (amended): with a local substitute configured and the tunnel
flag unset, a substitute whose returned promise rejects propagates that
rejection to the caller after the artificial delay, neither retried nor
swallowed; a substitute that throws synchronously instead leaves the
dispatch promise unsettled, because the exception escapes the timer
callback before resolve runs. -/
theorem substitute_failure_behavior {E : Type} (s : APIService E) (key : String)
    (call : APIRequest E) (m : MockRequest E)
    (fetchJson : String → String → Json) (input : Json) (e : E)
    (hcall : List.lookup key s.api = some call)
    (hflag : s.integrationMocks = false)
    (hm : List.lookup key s.mocks = some m) :
    (m input = MockBehavior.returns (Outcome.rejected e) →
       s.dispatch key fetchJson input =
         some (DispatchTrace.substituted (effectiveTimeout s.timeout)
           (Outcome.rejected e)))
  ∧ (m input = MockBehavior.throws e →
       s.dispatch key fetchJson input =
         some (DispatchTrace.substituted (effectiveTimeout s.timeout)
           Outcome.pending)) := by
  constructor
  · intro hresp
    simp [APIService.dispatch, hcall, hflag, hm, settleMock, hresp]
  · intro hresp
    simp [APIService.dispatch, hcall, hflag, hm, settleMock, hresp]

/-- Witness for claim C6 (amended): the rejecting sample substitute's
rejection is delivered to the caller after the default delay. -/
theorem substitute_failure_behavior_witness :
    rejectingService.dispatch "getUsers" sampleFetch Json.null =
      some (DispatchTrace.substituted 200
        (Outcome.rejected "err" : Outcome String Json)) :=
  (substitute_failure_behavior rejectingService "getUsers" sampleCall
    rejectingMock sampleFetch Json.null "err" rfl rfl rfl).1 rfl

/-- Claim C7, code evaluated at the failing input: the path template
"/users/:id" with input field id = "7" is returned unchanged, because the
code searches for the slash-delimited pattern "/:id/" which a trailing
segment never contains; a template with the segment in the middle is
substituted as documented. -/
theorem buildURL_trailing_segment_unreplaced :
    buildURL "/users/:id" (some [("id", "7")]) = "/users/:id" ∧
    buildURL "/users/:id" (some [("id", "7")]) ≠ "/users/7" ∧
    buildURL "/users/:id/posts" (some [("id", "7")]) = "/users/7/posts" :=
  ⟨rfl, by decide, rfl⟩

/-- Claim C9: a falsy configured timeout (explicitly 0, or absent) makes
the substitute path wait the default 200 milliseconds; a truthy timeout is
used as given. -/
theorem falsy_timeout_default {E : Type} (s : APIService E) (key : String)
    (call : APIRequest E) (m : MockRequest E)
    (fetchJson : String → String → Json) (input : Json)
    (hcall : List.lookup key s.api = some call)
    (hflag : s.integrationMocks = false)
    (hm : List.lookup key s.mocks = some m) :
    effectiveTimeout (some 0) = 200
  ∧ effectiveTimeout none = 200
  ∧ (∀ t : Nat, t ≠ 0 → effectiveTimeout (some t) = t)
  ∧ (s.timeout = some 0 →
       s.dispatch key fetchJson input =
         some (DispatchTrace.substituted 200 (settleMock (m input)))) := by
  refine ⟨rfl, rfl, ?_, ?_⟩
  · intro t ht
    simp [effectiveTimeout, ht]
  · intro htime
    simp [APIService.dispatch, hcall, hflag, hm, htime, effectiveTimeout]

/-- Witness for claim C9: the sample service configured with timeout 0
dispatches its substituted request with a 200ms delay. -/
theorem falsy_timeout_default_witness :
    zeroTimeoutService.dispatch "getUsers" sampleFetch Json.null =
      some (DispatchTrace.substituted 200
        (Outcome.resolved (Json.str "mocked") : Outcome String Json)) :=
  (falsy_timeout_default zeroTimeoutService "getUsers" sampleCall sampleMock
    sampleFetch Json.null rfl rfl rfl).2.2.2 rfl


/-- Claim C8: a request name present in the registry but absent from the
substitute mapping gets an Endpoint Interceptor whose default responder
returns the empty object, so a matching intercepted call with no override
set is completed with status 200 and the two-brace empty-object body
rather than failing or passing through. -/
theorem default_mock_empty_object {E : Type} (s : APIService E) (p : PageModel)
    (key : String) (call : APIRequest E) (req : InterceptedRequest) (input : Json)
    (hcall : List.lookup key s.api = some call)
    (hnm : List.lookup key s.mocks = none)
    (hh : req.alreadyHandled = false)
    (hmatch : strEndsWith req.url (s.name ++ "/" ++ key) = true)
    (hp : Json.parse (effectiveBody req.postData) = some input)
    (hafter : req.handledAfterAwait = false) :
    List.lookup key (mockAPI s p).2.2 =
      some (RequestMock.new (s.name ++ "/" ++ key) (defaultPuppetMock : MockRequest E))
  ∧ RequestMock.listener
      (RequestMock.new (s.name ++ "/" ++ key) (defaultPuppetMock : MockRequest E))
      req =
      ({ (RequestMock.new (s.name ++ "/" ++ key)
            (defaultPuppetMock : MockRequest E)) with
          calls := [(input, Json.obj JsonFields.nil)] },
       ListenerResult.respond 200 "application/json"
         (String.mk [lbrace, rbrace]) 0) := by
  constructor
  · show List.lookup key (s.api.foldl (mockAPIStep s.name s.mocks)
      ({ p with requestInterceptionEnabled := true }, [])).2 = _
    rw [mockAPIStep_fold_list]
    rw [List.nil_append]
    rw [lookup_map_assoc key
      (fun k => RequestMock.new (s.name ++ "/" ++ k)
        ((List.lookup k s.mocks).getD defaultPuppetMock)) s.api]
    rw [hcall]
    simp [hnm]
  · simp [RequestMock.listener, RequestMock.new, defaultPuppetMock,
      hh, hmatch, hp, hafter]
    rfl

/-- Witness for claim C8: on the two-request no-mocks sample service, the
getUsers interceptor responds to a body-less matching request with status
200 and the empty-object body. -/
theorem default_mock_empty_object_witness :
    RequestMock.listener
      (RequestMock.new ("users" ++ "/" ++ "getUsers")
        (defaultPuppetMock : MockRequest String)) emptyBodyIntercepted =
      ({ (RequestMock.new ("users" ++ "/" ++ "getUsers")
            (defaultPuppetMock : MockRequest String)) with
          calls := [(Json.obj JsonFields.nil, Json.obj JsonFields.nil)] },
       ListenerResult.respond 200 "application/json"
         (String.mk [lbrace, rbrace]) 0) :=
  (default_mock_empty_object twoRequestService page0 "getUsers" sampleCall
    emptyBodyIntercepted (Json.obj JsonFields.nil) rfl rfl rfl rfl rfl rfl).2

/-- Claim C10: setResponse, setError and reset leave the call history
unchanged, and the listener either leaves it unchanged or appends exactly
one input-output entry to its end; no operation removes or rewrites
history entries. -/
theorem calls_history_frame {E : Type} (st : RequestMockState E) (code : Nat)
    (mock mock2 : MockRequest E) (req : InterceptedRequest) :
    (RequestMock.setResponse st mock2).calls = st.calls
  ∧ (RequestMock.setError st code mock).calls = st.calls
  ∧ (RequestMock.reset st).calls = st.calls
  ∧ ((RequestMock.listener st req).1.calls = st.calls ∨
     ∃ entry : Json × Json,
       (RequestMock.listener st req).1.calls = st.calls ++ [entry]) := by
  refine ⟨rfl, rfl, rfl, ?_⟩
  unfold RequestMock.listener
  repeat' split
  all_goals
    first
      | exact Or.inl rfl
      | exact Or.inr ⟨_, rfl⟩
